import Mathlib

/-!
Verification of the elephant-tracker usage-tracking HTTP service.

This file gives a shallow embedding, in Lean 4, of the final iteration of the
service found in the repository: the data model (`Installation`, `Session`),
the storage operations (`insertInstallation`, `insertSession`, `closeSession`,
`pingSession`, translated from `web.go`, whose semantics agree with the
in-memory `TestStore` of the test suite), and the four request handlers plus
the uptime endpoint (translated from `handlers.go`).

Modelling conventions:
* Timestamps are `Nat`; the Go zero `time.Time` is `0`, so "unset timestamp"
  is `= 0` and `bson.Now()` is an explicit `now : Nat` parameter threaded to
  the functions that call it in Go.
* `bson.ObjectId` is the list of its 12 bytes (`List Nat`); `bson.NewObjectId()`
  is an explicit `freshId` parameter.
* Go maps keyed by strings/ids are association lists; MongoDB collections are
  lists of records.  `Find(query).Apply(change)` is "update the first record
  satisfying the query, or report `ErrNotFound` when none does", which is the
  single-document `findAndModify` semantics `mgo` provides; on failure the
  collection is untouched.
* A handler result carries the HTTP response, the resulting store, and the
  number of storage-gateway calls the handler performed, so that claims about
  "no store call is made" are directly expressible.
* `http.Error(w, msg, code)` writes `msg ++ "\n"`, and `fmt.Fprintln` writes
  its argument followed by `"\n"` with implicit status 200, as in Go.
* The panic hidden in `bson.ObjectIdHex` is modelled by `Option`: the close
  and ping handlers return `none` exactly when that panic would fire.
-/

/-- One byte of a BSON object id. -/
abbrev Byte := Nat

/-- `bson.ObjectId`: the 12 raw bytes of an object id. -/
abbrev ObjectId := List Byte

/-- Value of a single hexadecimal digit character, as in Go's `encoding/hex`. -/
def hexDigitVal (c : Char) : Option Nat :=
  if '0' ≤ c ∧ c ≤ '9' then some (c.toNat - '0'.toNat)
  else if 'a' ≤ c ∧ c ≤ 'f' then some (c.toNat - 'a'.toNat + 10)
  else if 'A' ≤ c ∧ c ≤ 'F' then some (c.toNat - 'A'.toNat + 10)
  else none

/-- Go's `hex.DecodeString` on a list of characters: decodes pairs of hex
digits into bytes, failing on a non-hex digit or an odd length. -/
def hexDecode : List Char → Option (List Byte)
  | [] => some []
  | [_] => none
  | a :: b :: rest =>
    match hexDigitVal a with
    | none => none
    | some ha =>
      match hexDigitVal b with
      | none => none
      | some hb =>
        match hexDecode rest with
        | none => none
        | some d => some ((16 * ha + hb) :: d)

/-- Lower-case hex digit character for a value `< 16`. -/
def hexChar (n : Nat) : Char :=
  if n < 10 then Char.ofNat ('0'.toNat + n) else Char.ofNat ('a'.toNat + n - 10)

/-- `bson.ObjectId.Hex()`: lower-case hex encoding of the id's bytes. -/
def hexEncode (d : ObjectId) : String :=
  String.mk (d.flatMap fun b => [hexChar (b / 16), hexChar (b % 16)])

/-- `bson.IsObjectIdHex`: the string has length 24 and decodes as hex. -/
def isObjectIdHex (s : String) : Bool :=
  s.length == 24 && (hexDecode s.data).isSome

/-- `bson.ObjectIdHex`: decodes the hex string to an id; `none` models the
panic raised in Go when the input is not a valid 12-byte hex string. -/
def objectIdHex (s : String) : Option ObjectId :=
  match hexDecode s.data with
  | some d => if d.length == 12 then some d else none
  | none => none

/-- A decoded hex list is half as long as its input. -/
theorem hexDecode_length : ∀ (cs : List Char) (d : List Byte),
    hexDecode cs = some d → cs.length = 2 * d.length
  | [], d, h => by
    simp only [hexDecode, Option.some.injEq] at h
    simp [← h]
  | [c], d, h => by
    exact absurd h (by simp [hexDecode])
  | a :: b :: rest, d, h => by
    simp only [hexDecode] at h
    cases ha : hexDigitVal a with
    | none => rw [ha] at h; exact absurd h (by simp)
    | some va =>
      rw [ha] at h
      cases hb : hexDigitVal b with
      | none => rw [hb] at h; exact absurd h (by simp)
      | some vb =>
        rw [hb] at h
        cases hd : hexDecode rest with
        | none => rw [hd] at h; exact absurd h (by simp)
        | some d0 =>
          rw [hd] at h
          simp only [Option.some.injEq] at h
          have ih := hexDecode_length rest d0 hd
          subst h
          simp only [List.length_cons, ih]
          ring

/-- If `IsObjectIdHex` accepts a string, `ObjectIdHex` cannot panic: the
decoded id exists (and has 12 bytes). -/
theorem objectIdHex_isSome_of_isObjectIdHex (s : String) :
    isObjectIdHex s = true → ∃ d, objectIdHex s = some d := by
  intro h
  simp only [isObjectIdHex, Bool.and_eq_true, beq_iff_eq, Option.isSome_iff_exists] at h
  obtain ⟨hlen, d, hd⟩ := h
  refine ⟨d, ?_⟩
  have hl := hexDecode_length s.data d hd
  have hsl : s.data.length = s.length := rfl
  have h12 : d.length = 12 := by omega
  simp [objectIdHex, hd, h12]

/-- An `ObjectIdHex` success implies the `IsObjectIdHex` check holds. -/
theorem isObjectIdHex_of_objectIdHex {s : String} {d : ObjectId}
    (h : objectIdHex s = some d) : isObjectIdHex s = true := by
  unfold objectIdHex at h
  cases hd : hexDecode s.data with
  | none => rw [hd] at h; exact absurd h (by simp)
  | some d0 =>
    rw [hd] at h
    by_cases h12 : d0.length = 12
    · have hl := hexDecode_length s.data d0 hd
      have hsl : s.data.length = s.length := rfl
      simp only [isObjectIdHex, hd, Option.isSome_some, Bool.and_true, beq_iff_eq]
      omega
    · simp [h12] at h

/-! ## JSON decoding into a string-to-string map

`handlers.go` calls `encoding/json`'s `Unmarshal` with a `map[string]string`
target.  That decoder is standard-library code, outside this repository; the
package documentation in `doc.go` states the accepted inputs: "dosvox_info
and machine_info can either be null or contain a JSON-encoded mapping of
strings to strings".  The model below decodes exactly that shape: optional
whitespace, then either the literal `null` (yielding the nil map, modelled as
`[]`) or a flat object whose values are strings, with nothing but whitespace
after the value.  String escapes are the single-character ones; `\u` escapes
are not modelled. -/

/-- JSON insignificant whitespace. -/
def isJsonWs (c : Char) : Bool :=
  c == ' ' || c == '\t' || c == '\n' || c == '\r'

/-- Drop leading JSON whitespace. -/
def skipWs : List Char → List Char
  | [] => []
  | c :: rest => if isJsonWs c then skipWs rest else c :: rest

/-- Single-character JSON string escapes. -/
def escChar : Char → Option Char
  | '"' => some '"'
  | '\\' => some '\\'
  | '/' => some '/'
  | 'b' => some (Char.ofNat 8)
  | 'f' => some (Char.ofNat 12)
  | 'n' => some '\n'
  | 'r' => some '\r'
  | 't' => some '\t'
  | _ => none

/-- Parse the body of a JSON string (after the opening quote), returning the
decoded characters and the remaining input after the closing quote. -/
def parseStrChars : List Char → Option (List Char × List Char)
  | [] => none
  | '"' :: rest => some ([], rest)
  | '\\' :: rest =>
    match rest with
    | [] => none
    | e :: rest1 =>
      match escChar e with
      | none => none
      | some c =>
        match parseStrChars rest1 with
        | none => none
        | some (s, r) => some (c :: s, r)
  | c :: rest =>
    match parseStrChars rest with
    | none => none
    | some (s, r) => some (c :: s, r)

/-- Parse the members of a JSON object (after the opening brace), fuelled by
the remaining input length; returns the key/value pairs and the input after
the closing brace. -/
def parseMembers : Nat → List Char → Option (List (String × String) × List Char)
  | 0, _ => none
  | fuel + 1, cs =>
    match skipWs cs with
    | '}' :: rest => some ([], rest)
    | '"' :: rest =>
      match parseStrChars rest with
      | none => none
      | some (k, r1) =>
        match skipWs r1 with
        | ':' :: r2 =>
          match skipWs r2 with
          | '"' :: r3 =>
            match parseStrChars r3 with
            | none => none
            | some (v, r4) =>
              match skipWs r4 with
              | ',' :: r5 =>
                match parseMembers fuel r5 with
                | none => none
                | some (m, r6) => some ((String.mk k, String.mk v) :: m, r6)
              | '}' :: r5 => some ([(String.mk k, String.mk v)], r5)
              | _ => none
          | _ => none
        | _ => none
    | _ => none

/-- `json.Unmarshal(data, &m)` for `m : map[string]string`: succeeds on `null`
(nil map) or a flat string-to-string object, rejecting trailing data. -/
def unmarshalStringMap (s : String) : Option (List (String × String)) :=
  match skipWs s.data with
  | 'n' :: 'u' :: 'l' :: 'l' :: rest =>
    if (skipWs rest).isEmpty then some [] else none
  | '{' :: rest =>
    match parseMembers (rest.length + 1) rest with
    | none => none
    | some (m, r) => if (skipWs r).isEmpty then some m else none
  | _ => none

/-! ## Forms

`r.PostForm` is Go's `url.Values`, a map from field name to list of values.
It is modelled as an association list of (name, value) pairs; repeated names
model repeated values of one key, so the map's size (`len(r.PostForm)`) is
the number of distinct names, and `r.PostFormValue` is the first value of a
name, or `""` when absent. -/

/-- A decoded POST form. -/
abbrev Form := List (String × String)

/-- `r.PostFormValue(key)`: the first value for the key, `""` if absent. -/
def formValue (form : Form) (key : String) : String :=
  match form.find? (fun p => p.1 == key) with
  | some p => p.2
  | none => ""

/-- `len(r.PostForm)`: the number of distinct field names. -/
def formLen (form : Form) : Nat :=
  ((form.map Prod.fst).dedup).length

/-- The distinct field names of a form, as a finite set. -/
def formKeys (form : Form) : Finset String :=
  (form.map Prod.fst).toFinset

/-! ## Data model (`web.go`) -/

/-- `HttpRequest`: the subset of `http.Request` persisted with a session. -/
structure HttpRequest where
  method : String
  url : String
  header : List (String × String)
  host : String
  form : Form
  remoteAddr : String
deriving DecidableEq

/-- `Installation`: one tracked client install, keyed by machine id. -/
structure Installation where
  machineId : String
  xmppvoxVersion : String
  dosvoxInfo : List (String × String)
  machineInfo : List (String × String)
  createdAt : Nat
deriving DecidableEq

/-- `Session`: one usage session of the tracked client. -/
structure Session where
  id : ObjectId
  createdAt : Nat
  closedAt : Nat
  lastPing : Nat
  jid : String
  machineId : String
  xmppvoxVersion : String
  request : HttpRequest
deriving DecidableEq

/-- `NewInstallation` (`web.go`): `bson.Now()` is the `now` argument. -/
def NewInstallation (machineId xmppvoxVersion : String)
    (dosvoxInfo machineInfo : List (String × String)) (now : Nat) : Installation :=
  { machineId := machineId
    xmppvoxVersion := xmppvoxVersion
    dosvoxInfo := dosvoxInfo
    machineInfo := machineInfo
    createdAt := now }

/-- `NewSession` (`web.go`): `bson.NewObjectId()` and `bson.Now()` are the
`freshId` and `now` arguments; closed and last-ping timestamps start unset. -/
def NewSession (jid machineId xmppvoxVersion : String) (r : HttpRequest)
    (freshId : ObjectId) (now : Nat) : Session :=
  { id := freshId
    createdAt := now
    closedAt := 0
    lastPing := 0
    jid := jid
    machineId := machineId
    xmppvoxVersion := xmppvoxVersion
    request := r }

/-! ## The store and its four operations -/

/-- The persistent store: the `installations` and `sessions` collections. -/
structure Store where
  installations : List Installation
  sessions : List Session
deriving DecidableEq

/-- Storage errors visible to the handlers: `mgo.IsDup`, `mgo.ErrNotFound`,
or any other (connectivity) error. -/
inductive StoreErr where
  | dup
  | notFound
  | other
deriving DecidableEq

/-- The `closed_at`-guarded ownership query of `CloseSession`/`PingSession`
(`web.go`): `{_id: sessionId, machine_id: machineId, closed_at: time.Time{}}`. -/
def sessionQuery (sessionId : ObjectId) (machineId : String) (t : Session) : Bool :=
  t.id == sessionId && t.machineId == machineId && t.closedAt == 0

/-- Update the first list entry satisfying `p` (MongoDB `findAndModify`). -/
def updateFirstMatch (p : Session → Bool) (f : Session → Session) :
    List Session → List Session
  | [] => []
  | t :: rest => if p t then f t :: rest else t :: updateFirstMatch p f rest

/-- `InsertInstallation` (`web.go`): inserting into `installations` fails with
a duplicate-key error when a record with the same `_id` (machine id) exists. -/
def insertInstallation (st : Store) (i : Installation) : Except StoreErr Store :=
  if st.installations.any (fun j => j.machineId == i.machineId) then
    .error .dup
  else
    .ok { st with installations := st.installations ++ [i] }

/-- `InsertSession` (`web.go`): inserting into `sessions` fails with a
duplicate-key error when a record with the same `_id` exists. -/
def insertSession (st : Store) (s : Session) : Except StoreErr Store :=
  if st.sessions.any (fun t => t.id == s.id) then
    .error .dup
  else
    .ok { st with sessions := st.sessions ++ [s] }

/-- `CloseSession` (`web.go`): atomically finds the session matching
`{_id, machine_id, closed_at unset}` and sets `closed_at` to `bson.Now()`;
`mgo.ErrNotFound` when no session matches (the collection is then untouched). -/
def closeSession (st : Store) (sessionId : ObjectId) (machineId : String)
    (now : Nat) : Except StoreErr Store :=
  if st.sessions.any (sessionQuery sessionId machineId) then
    .ok { st with
          sessions := updateFirstMatch (sessionQuery sessionId machineId)
            (fun t => { t with closedAt := now }) st.sessions }
  else
    .error .notFound

/-- `PingSession` (`web.go`): same matching rule as `closeSession`, setting
`last_ping` instead. -/
def pingSession (st : Store) (sessionId : ObjectId) (machineId : String)
    (now : Nat) : Except StoreErr Store :=
  if st.sessions.any (sessionQuery sessionId machineId) then
    .ok { st with
          sessions := updateFirstMatch (sessionQuery sessionId machineId)
            (fun t => { t with lastPing := now }) st.sessions }
  else
    .error .notFound

/-! ## Request handlers (`handlers.go`) -/

/-- An HTTP response: status code and the full body text. -/
structure Response where
  status : Nat
  body : String
deriving DecidableEq

/-- The parts of an incoming `*http.Request` the handlers read: `r.PostForm`
for field access, and the fields snapshotted into `HttpRequest`. -/
structure ApiRequest where
  method : String
  url : String
  header : List (String × String)
  host : String
  form : Form
  postForm : Form
  remoteAddr : String
deriving DecidableEq

/-- The `HttpRequest` snapshot `NewSessionHandler` builds from the request. -/
def ApiRequest.snapshot (r : ApiRequest) : HttpRequest :=
  { method := r.method
    url := r.url
    header := r.header
    host := r.host
    form := r.form
    remoteAddr := r.remoteAddr }

/-- Result of running a handler: the response, the store afterwards, and how
many storage-gateway calls were made. -/
structure HResult where
  resp : Response
  store : Store
  storeCalls : Nat
deriving DecidableEq

/-- The failing validation condition of `NewInstallationHandler`:
`len(r.PostForm) != 4 || machineId == "" || xmppvoxVersion == "" ||
dosvoxInfoStr == "" || machineInfoStr == ""`. -/
def installFormBad (form : Form) : Bool :=
  formLen form != 4 || formValue form "machine_id" == ""
    || formValue form "xmppvox_version" == ""
    || formValue form "dosvox_info" == ""
    || formValue form "machine_info" == ""

/-- The failing validation condition of `NewSessionHandler`:
`len(r.PostForm) != 3 || jid == "" || machineId == "" || xmppvoxVersion == ""`. -/
def sessFormBad (form : Form) : Bool :=
  formLen form != 3 || formValue form "jid" == ""
    || formValue form "machine_id" == ""
    || formValue form "xmppvox_version" == ""

/-- The failing validation condition of `CloseSessionHandler` and
`PingSessionHandler`: `len(r.PostForm) != 2 || sessionIdHex == "" ||
machineId == ""`. -/
def sidFormBad (form : Form) : Bool :=
  formLen form != 2 || formValue form "session_id" == ""
    || formValue form "machine_id" == ""

/-- `NewInstallationHandler` (`handlers.go`); the Go locals `machineId`,
`xmppvoxVersion`, `dosvoxInfoStr`, `machineInfoStr` are inlined as
`formValue` applications. -/
def newInstallationHandler (st : Store) (form : Form) (now : Nat) : HResult :=
  if installFormBad form then
    ⟨⟨400, "Retry with POST parameters: machine_id, xmppvox_version, dosvox_info, machine_info\n"⟩, st, 0⟩
  else
    match unmarshalStringMap (formValue form "dosvox_info") with
    | none => ⟨⟨400, "Invalid JSON for dosvox_info\n"⟩, st, 0⟩
    | some dosvoxInfo =>
      match unmarshalStringMap (formValue form "machine_info") with
      | none => ⟨⟨400, "Invalid JSON for machine_info\n"⟩, st, 0⟩
      | some machineInfo =>
        match insertInstallation st
            (NewInstallation (formValue form "machine_id")
              (formValue form "xmppvox_version") dosvoxInfo machineInfo now) with
        | .error .dup => ⟨⟨400, "Installation already registered\n"⟩, st, 1⟩
        | .ok st1 => ⟨⟨200, formValue form "machine_id" ++ "\n"⟩, st1, 1⟩
        | .error _ =>
          ⟨⟨500, "Failed to track install " ++ formValue form "machine_id" ++ "\n"⟩, st, 1⟩

/-- `NewSessionHandler` (`handlers.go`); the Go locals `jid`, `machineId`,
`xmppvoxVersion` and `s` are inlined. -/
def newSessionHandler (st : Store) (r : ApiRequest) (freshId : ObjectId)
    (now : Nat) : HResult :=
  if sessFormBad r.postForm then
    ⟨⟨400, "Retry with POST parameters: jid, machine_id, xmppvox_version\n"⟩, st, 0⟩
  else
    match insertSession st
        (NewSession (formValue r.postForm "jid") (formValue r.postForm "machine_id")
          (formValue r.postForm "xmppvox_version") r.snapshot freshId now) with
    | .ok st1 => ⟨⟨200, hexEncode freshId ++ "\n"⟩, st1, 1⟩
    | .error _ => ⟨⟨500, "Failed to create a new session\n"⟩, st, 1⟩

/-- `CloseSessionHandler` (`handlers.go`); `none` models the panic of
`bson.ObjectIdHex` on an invalid id. -/
def closeSessionHandler (st : Store) (r : ApiRequest) (now : Nat) :
    Option HResult :=
  if sidFormBad r.postForm then
    some ⟨⟨400, "Retry with POST parameters: session_id, machine_id\n"⟩, st, 0⟩
  else if !isObjectIdHex (formValue r.postForm "session_id") then
    some ⟨⟨400, "Invalid session id " ++ formValue r.postForm "session_id" ++ "\n"⟩, st, 0⟩
  else
    match objectIdHex (formValue r.postForm "session_id") with
    | none => none
    | some sessionId =>
      match closeSession st sessionId (formValue r.postForm "machine_id") now with
      | .ok st1 => some ⟨⟨200, formValue r.postForm "session_id" ++ "\n"⟩, st1, 1⟩
      | .error .notFound =>
        some ⟨⟨400, "Session " ++ formValue r.postForm "session_id"
            ++ " does not exist or is already closed\n"⟩, st, 1⟩
      | .error _ =>
        some ⟨⟨500, "Failed to close session " ++ formValue r.postForm "session_id"
            ++ "\n"⟩, st, 1⟩

/-- `PingSessionHandler` (`handlers.go`); `none` models the panic of
`bson.ObjectIdHex` on an invalid id. -/
def pingSessionHandler (st : Store) (r : ApiRequest) (now : Nat) :
    Option HResult :=
  if sidFormBad r.postForm then
    some ⟨⟨400, "Retry with POST parameters: session_id, machine_id\n"⟩, st, 0⟩
  else if !isObjectIdHex (formValue r.postForm "session_id") then
    some ⟨⟨400, "Invalid session id " ++ formValue r.postForm "session_id" ++ "\n"⟩, st, 0⟩
  else
    match objectIdHex (formValue r.postForm "session_id") with
    | none => none
    | some sessionId =>
      match pingSession st sessionId (formValue r.postForm "machine_id") now with
      | .ok st1 => some ⟨⟨200, formValue r.postForm "session_id" ++ "\n"⟩, st1, 1⟩
      | .error .notFound =>
        some ⟨⟨400, "Session " ++ formValue r.postForm "session_id"
            ++ " does not exist or is already closed\n"⟩, st, 1⟩
      | .error _ =>
        some ⟨⟨500, "Failed to ping session " ++ formValue r.postForm "session_id"
            ++ "\n"⟩, st, 1⟩

/-- Two-digit zero-padded decimal, Go's `%02d` for values below 100. -/
def pad2 (n : Nat) : String :=
  if n < 10 then "0" ++ toString n else toString n

/-- The `/uptime` handler (`handlers.go`): given the elapsed duration since
process start in nanoseconds, it computes `h, m, s` by truncating
`d.Hours()`, `d.Minutes()`, `d.Seconds()` to integers and writes
`"API uptime: %dd%02dh%02dm%02ds\n"` with `h/24, h%24, m%60, s%60`; the
status is the implicit 200. -/
def uptimeResponse (ns : Nat) : Response :=
  let h := ns / 3600000000000
  let m := ns / 60000000000
  let s := ns / 1000000000
  ⟨200, "API uptime: " ++ toString (h / 24) ++ "d" ++ pad2 (h % 24) ++ "h"
      ++ pad2 (m % 60) ++ "m" ++ pad2 (s % 60) ++ "s\n"⟩

/-! ## Sequences of API operations -/

/-- One API operation, with the nondeterministic inputs (fresh id, clock
reading) made explicit. -/
inductive Op where
  | newInstall (form : Form) (now : Nat)
  | newSess (r : ApiRequest) (freshId : ObjectId) (now : Nat)
  | closeSess (r : ApiRequest) (now : Nat)
  | pingSess (r : ApiRequest) (now : Nat)

/-- The store after one API operation (the panic case, shown unreachable
elsewhere, leaves the store as is). -/
def apiStep (st : Store) : Op → Store
  | .newInstall form now => (newInstallationHandler st form now).store
  | .newSess r freshId now => (newSessionHandler st r freshId now).store
  | .closeSess r now => ((closeSessionHandler st r now).map HResult.store).getD st
  | .pingSess r now => ((pingSessionHandler st r now).map HResult.store).getD st

/-- The store after a sequence of API operations. -/
def runOps (st : Store) (ops : List Op) : Store :=
  ops.foldl apiStep st

/-- The closed timestamp of the session with the given id, if present. -/
def closedOf (st : Store) (i : ObjectId) : Option Nat :=
  (st.sessions.find? (fun t => t.id == i)).map Session.closedAt

/-- The last-ping timestamp of the session with the given id, if present. -/
def lastPingOf (st : Store) (i : ObjectId) : Option Nat :=
  (st.sessions.find? (fun t => t.id == i)).map Session.lastPing

/-- The session record with the given id, if present. -/
def sessionOf (st : Store) (i : ObjectId) : Option Session :=
  st.sessions.find? (fun t => t.id == i)

/-- The installation record with the given machine id, if present. -/
def installationOf (st : Store) (m : String) : Option Installation :=
  st.installations.find? (fun j => j.machineId == m)

/-! ## Helper lemmas -/

/-- `formLen` is the size of the set of field names. -/
theorem formLen_eq_card (form : Form) : formLen form = (formKeys form).card := by
  simp [formLen, formKeys, List.card_toFinset]

/-- A field with a non-empty value is among the form's field names. -/
theorem mem_formKeys_of_formValue_ne (form : Form) (k : String)
    (h : formValue form k ≠ "") : k ∈ formKeys form := by
  unfold formValue at h
  cases hf : form.find? (fun p => p.1 == k) with
  | none => rw [hf] at h; exact absurd rfl h
  | some p =>
    have hp := List.find?_some hf
    have hmem := List.mem_of_find?_eq_some hf
    simp only [beq_iff_eq] at hp
    simp only [formKeys, List.mem_toFinset, List.mem_map]
    exact ⟨p, hmem, hp⟩

/-- If a form's keys cover a set of that exact cardinality, they equal it. -/
theorem formKeys_eq_of_subset_card (form : Form) (req : Finset String)
    (hsub : req ⊆ formKeys form) (hcard : formLen form = req.card) :
    formKeys form = req :=
  (Finset.eq_of_subset_of_card_le hsub (by rw [← formLen_eq_card, hcard])).symm

/-- Unfolding of the close/ping ownership query. -/
theorem sessionQuery_eq_true_iff (sid : ObjectId) (mid : String) (t : Session) :
    sessionQuery sid mid t = true ↔
    t.id = sid ∧ t.machineId = mid ∧ t.closedAt = 0 := by
  simp [sessionQuery, Bool.and_eq_true, beq_iff_eq, and_assoc]

/-- Decomposing `updateFirstMatch` around the first match. -/
theorem updateFirstMatch_decomp (p : Session → Bool) (f : Session → Session) :
    ∀ l : List Session, l.any p = true →
      ∃ l1 t l2, l = l1 ++ t :: l2 ∧ (∀ u ∈ l1, p u = false) ∧ p t = true ∧
        updateFirstMatch p f l = l1 ++ f t :: l2
  | [], h => by simp at h
  | u :: rest, h => by
    by_cases hu : p u = true
    · exact ⟨[], u, rest, rfl, by simp, hu, by simp [updateFirstMatch, hu]⟩
    · have hrest : rest.any p = true := by
        simp only [List.any_cons, Bool.or_eq_true] at h
        exact h.resolve_left hu
      obtain ⟨l1, t, l2, hl, hl1, ht, hup⟩ := updateFirstMatch_decomp p f rest hrest
      refine ⟨u :: l1, t, l2, by simp [hl], ?_, ht, ?_⟩
      · intro v hv
        rcases List.mem_cons.mp hv with rfl | hv1
        · exact Bool.not_eq_true _ ▸ (by simpa using hu)
        · exact hl1 v hv1
      · simp [updateFirstMatch, hu, hup]

/-- `find?` over a single appended element. -/
theorem find?_append_singleton (l : List Session) (s : Session) (i : ObjectId) :
    (l ++ [s]).find? (fun t => t.id == i)
      = ((l.find? (fun t => t.id == i)).or
          (if s.id == i then some s else none)) := by
  rw [List.find?_append]
  congr 1
  cases h : s.id == i <;> simp [List.find?, h]

/-- Unfolding `find?` over a cons cell. -/
theorem find?_cons_eq (p : Session → Bool) (a : Session) (l : List Session) :
    (a :: l).find? p = if p a then some a else l.find? p := by
  cases h : p a <;> simp [List.find?_cons, h]

/-- `updateFirstMatch` on a matching head. -/
theorem updateFirstMatch_cons_pos {p : Session → Bool} {u : Session}
    (f : Session → Session) (rest : List Session) (h : p u = true) :
    updateFirstMatch p f (u :: rest) = f u :: rest := by
  simp [updateFirstMatch, h]

/-- `updateFirstMatch` on a non-matching head. -/
theorem updateFirstMatch_cons_neg {p : Session → Bool} {u : Session}
    (f : Session → Session) (rest : List Session) (h : p u = false) :
    updateFirstMatch p f (u :: rest) = u :: updateFirstMatch p f rest := by
  simp [updateFirstMatch, h]

/-- `updateFirstMatch` with an update that preserves the id and an
observation `g` preserves `find?`-then-`g`. -/
theorem find?_map_updateFirstMatch {α : Type} (g : Session → α)
    (p : Session → Bool) (f : Session → Session)
    (hid : ∀ t, (f t).id = t.id) (hg : ∀ t, g (f t) = g t) :
    ∀ (l : List Session) (i : ObjectId),
      ((updateFirstMatch p f l).find? (fun t => t.id == i)).map g
        = (l.find? (fun t => t.id == i)).map g
  | [], _ => rfl
  | u :: rest, i => by
    cases hu : p u with
    | true =>
      rw [updateFirstMatch_cons_pos f rest hu, find?_cons_eq, find?_cons_eq]
      simp only [hid u]
      cases hui : u.id == i <;> simp [hg]
    | false =>
      rw [updateFirstMatch_cons_neg f rest hu, find?_cons_eq, find?_cons_eq]
      cases hui : u.id == i with
      | true => simp
      | false => simpa using find?_map_updateFirstMatch g p f hid hg rest i

/-- Effect of the close update on the closed timestamp seen through
`find?` by id: unchanged, or it was unset and is now the given time. -/
theorem closedAt_updateClose (sid : ObjectId) (mid : String) (now : Nat) :
    ∀ (l : List Session) (i : ObjectId),
      ((updateFirstMatch (sessionQuery sid mid)
          (fun t => { t with closedAt := now }) l).find?
            (fun t => t.id == i)).map Session.closedAt
        = (l.find? (fun t => t.id == i)).map Session.closedAt
      ∨ ((l.find? (fun t => t.id == i)).map Session.closedAt = some 0
        ∧ ((updateFirstMatch (sessionQuery sid mid)
            (fun t => { t with closedAt := now }) l).find?
              (fun t => t.id == i)).map Session.closedAt = some now)
  | [], _ => Or.inl rfl
  | u :: rest, i => by
    cases hu : sessionQuery sid mid u with
    | true =>
      rw [updateFirstMatch_cons_pos _ rest hu, find?_cons_eq, find?_cons_eq]
      cases hui : u.id == i with
      | true =>
        right
        simp only [hui, if_true]
        exact ⟨by simp [((sessionQuery_eq_true_iff sid mid u).mp hu).2.2], by simp⟩
      | false =>
        left
        simp [hui]
    | false =>
      rw [updateFirstMatch_cons_neg _ rest hu, find?_cons_eq, find?_cons_eq]
      cases hui : u.id == i with
      | true => left; simp
      | false => simpa using closedAt_updateClose sid mid now rest i

/-- If the first session with a given id is closed, an update guarded by an
"open" query cannot touch it: any observation through `find?` is unchanged. -/
theorem find?_map_updateFirstMatch_of_closed {α : Type} (g : Session → α)
    (q : Session → Bool) (f : Session → Session)
    (hq : ∀ t, q t = true → t.closedAt = 0) (hid : ∀ t, (f t).id = t.id) :
    ∀ (l : List Session) (i : ObjectId) (c : Nat),
      (l.find? (fun t => t.id == i)).map Session.closedAt = some c → c ≠ 0 →
      ((updateFirstMatch q f l).find? (fun t => t.id == i)).map g
        = (l.find? (fun t => t.id == i)).map g
  | [], i, c, h, _ => by simp at h
  | u :: rest, i, c, h, hc => by
    rw [find?_cons_eq] at h
    cases hu : q u with
    | true =>
      rw [updateFirstMatch_cons_pos f rest hu, find?_cons_eq, find?_cons_eq]
      simp only [hid u]
      cases hui : u.id == i with
      | true =>
        exfalso
        rw [hui] at h
        have h2 : u.closedAt = c := by simpa using h
        exact hc (h2 ▸ hq u hu)
      | false => simp
    | false =>
      rw [updateFirstMatch_cons_neg f rest hu, find?_cons_eq, find?_cons_eq]
      cases hui : u.id == i with
      | true => simp
      | false =>
        rw [hui] at h
        simp only [Bool.false_eq_true, if_false] at h
        simpa using find?_map_updateFirstMatch_of_closed g q f hq hid rest i c h hc

/-- A successful `closeSession` performs exactly the guarded first-match
update. -/
theorem closeSession_ok_store {st : Store} {sid : ObjectId} {mid : String}
    {now : Nat} {st1 : Store} (h : closeSession st sid mid now = .ok st1) :
    st1 = { st with
            sessions := updateFirstMatch (sessionQuery sid mid)
              (fun t => { t with closedAt := now }) st.sessions } := by
  unfold closeSession at h
  split at h
  · cases h; rfl
  · cases h

/-- A successful `pingSession` performs exactly the guarded first-match
update. -/
theorem pingSession_ok_store {st : Store} {sid : ObjectId} {mid : String}
    {now : Nat} {st1 : Store} (h : pingSession st sid mid now = .ok st1) :
    st1 = { st with
            sessions := updateFirstMatch (sessionQuery sid mid)
              (fun t => { t with lastPing := now }) st.sessions } := by
  unfold pingSession at h
  split at h
  · cases h; rfl
  · cases h

/-- A successful `insertSession` appends the record, and the id was free. -/
theorem insertSession_ok_store {st : Store} {s : Session} {st1 : Store}
    (h : insertSession st s = .ok st1) :
    st1 = { st with sessions := st.sessions ++ [s] }
    ∧ st.sessions.find? (fun t => t.id == s.id) = none := by
  unfold insertSession at h
  split at h
  · cases h
  · cases h
    rename_i hany
    have hall : ∀ x ∈ st.sessions, ¬ x.id = s.id := by simpa using hany
    refine ⟨rfl, List.find?_eq_none.mpr ?_⟩
    intro t ht
    simpa using hall t ht

/-- A successful `insertInstallation` appends the record, leaves sessions
untouched, and the machine id was free. -/
theorem insertInstallation_ok_store {st : Store} {i : Installation} {st1 : Store}
    (h : insertInstallation st i = .ok st1) :
    st1 = { st with installations := st.installations ++ [i] } := by
  unfold insertInstallation at h
  split at h
  · cases h
  · cases h; rfl

/-- The installation handler never touches the sessions collection. -/
theorem newInstallationHandler_sessions (st : Store) (form : Form) (now : Nat) :
    (newInstallationHandler st form now).store.sessions = st.sessions := by
  unfold newInstallationHandler
  split
  · rfl
  · split
    · rfl
    · split
      · rfl
      · split
        · rfl
        · rename_i st1 heq
          rw [insertInstallation_ok_store heq]
        · rfl

/-- The session-creation handler leaves the sessions collection unchanged or
appends a fresh record with unset closed and last-ping timestamps. -/
theorem newSessionHandler_sessions (st : Store) (r : ApiRequest)
    (freshId : ObjectId) (now : Nat) :
    (newSessionHandler st r freshId now).store.sessions = st.sessions
    ∨ ∃ s : Session, s.closedAt = 0 ∧ s.lastPing = 0 ∧
        st.sessions.find? (fun t => t.id == s.id) = none ∧
        (newSessionHandler st r freshId now).store.sessions
          = st.sessions ++ [s] := by
  unfold newSessionHandler
  split
  · exact Or.inl rfl
  · split
    · rename_i st1 heq
      obtain ⟨hst1, hfree⟩ := insertSession_ok_store heq
      exact Or.inr ⟨_, rfl, rfl, hfree, by rw [hst1]⟩
    · exact Or.inl rfl

/-- Case analysis of the close handler's resulting store. -/
theorem closeSessionHandler_store_cases {st : Store} {r : ApiRequest}
    {now : Nat} {res : HResult} (h : closeSessionHandler st r now = some res) :
    res.store = st
    ∨ ∃ sid mid, res.store
        = { st with
            sessions := updateFirstMatch (sessionQuery sid mid)
              (fun t => { t with closedAt := now }) st.sessions } := by
  unfold closeSessionHandler at h
  split at h
  · cases h; exact Or.inl rfl
  · split at h
    · cases h; exact Or.inl rfl
    · split at h
      · cases h
      · rename_i sid heq
        split at h
        · rename_i st1 hcl
          cases h
          exact Or.inr ⟨sid, _, by simpa using closeSession_ok_store hcl⟩
        · cases h; exact Or.inl rfl
        · cases h; exact Or.inl rfl

/-- Case analysis of the ping handler's resulting store. -/
theorem pingSessionHandler_store_cases {st : Store} {r : ApiRequest}
    {now : Nat} {res : HResult} (h : pingSessionHandler st r now = some res) :
    res.store = st
    ∨ ∃ sid mid, res.store
        = { st with
            sessions := updateFirstMatch (sessionQuery sid mid)
              (fun t => { t with lastPing := now }) st.sessions } := by
  unfold pingSessionHandler at h
  split at h
  · cases h; exact Or.inl rfl
  · split at h
    · cases h; exact Or.inl rfl
    · split at h
      · cases h
      · rename_i sid heq
        split at h
        · rename_i st1 hpg
          cases h
          exact Or.inr ⟨sid, _, by simpa using pingSession_ok_store hpg⟩
        · cases h; exact Or.inl rfl
        · cases h; exact Or.inl rfl

/-- Every API step either leaves the sessions collection unchanged, appends
a fresh open record, or performs one guarded close/ping update. -/
theorem apiStep_sessions_cases (st : Store) (op : Op) :
    (apiStep st op).sessions = st.sessions
    ∨ (∃ s : Session, s.closedAt = 0 ∧ s.lastPing = 0 ∧
        st.sessions.find? (fun t => t.id == s.id) = none ∧
        (apiStep st op).sessions = st.sessions ++ [s])
    ∨ (∃ sid mid now, (apiStep st op).sessions
        = updateFirstMatch (sessionQuery sid mid)
            (fun t => { t with closedAt := now }) st.sessions)
    ∨ (∃ sid mid now, (apiStep st op).sessions
        = updateFirstMatch (sessionQuery sid mid)
            (fun t => { t with lastPing := now }) st.sessions) := by
  cases op with
  | newInstall form now =>
    exact Or.inl (newInstallationHandler_sessions st form now)
  | newSess r freshId now =>
    rcases newSessionHandler_sessions st r freshId now with h | h
    · exact Or.inl h
    · exact Or.inr (Or.inl h)
  | closeSess r now =>
    cases hres : closeSessionHandler st r now with
    | none => simp [apiStep, hres]
    | some res =>
      rcases closeSessionHandler_store_cases hres with h | ⟨sid, mid, h⟩
      · exact Or.inl (by simp [apiStep, hres, h])
      · exact Or.inr (Or.inr (Or.inl ⟨sid, mid, now, by simp [apiStep, hres, h]⟩))
  | pingSess r now =>
    cases hres : pingSessionHandler st r now with
    | none => simp [apiStep, hres]
    | some res =>
      rcases pingSessionHandler_store_cases hres with h | ⟨sid, mid, h⟩
      · exact Or.inl (by simp [apiStep, hres, h])
      · exact Or.inr (Or.inr (Or.inr ⟨sid, mid, now, by simp [apiStep, hres, h]⟩))

/-- One API step changes a session's closed timestamp only from unset to
set (or creates the session with it unset). -/
theorem apiStep_closedOf (st : Store) (op : Op) (i : ObjectId) :
    closedOf (apiStep st op) i = closedOf st i
    ∨ (closedOf st i = some 0 ∧ ∃ n, closedOf (apiStep st op) i = some n)
    ∨ (closedOf st i = none ∧ closedOf (apiStep st op) i = some 0) := by
  rcases apiStep_sessions_cases st op with
    h | ⟨s, hc, hp, hfree, h⟩ | ⟨sid, mid, now, h⟩ | ⟨sid, mid, now, h⟩
  · left; simp [closedOf, h]
  · unfold closedOf
    rw [h, find?_append_singleton]
    cases hfind : st.sessions.find? (fun t => t.id == i) with
    | some t => left; simp
    | none =>
      by_cases hsi : s.id = i
      · right; right
        exact ⟨by simp, by simp [hsi, hc]⟩
      · left
        simp [hsi]
  · unfold closedOf
    rw [h]
    rcases closedAt_updateClose sid mid now st.sessions i with h1 | ⟨h0, hnow⟩
    · left; exact h1
    · right; left; exact ⟨h0, now, hnow⟩
  · left
    unfold closedOf
    rw [h]
    exact find?_map_updateFirstMatch Session.closedAt (sessionQuery sid mid)
      (fun t => { t with lastPing := now }) (fun t => rfl) (fun t => rfl)
      st.sessions i

/-- One API step never changes the last-ping timestamp of a session whose
closed timestamp is set. -/
theorem apiStep_lastPingOf (st : Store) (op : Op) (i : ObjectId) (c : Nat)
    (h : closedOf st i = some c) (hc : c ≠ 0) :
    lastPingOf (apiStep st op) i = lastPingOf st i := by
  rcases apiStep_sessions_cases st op with
    hs | ⟨s, hcl, hp, hfree, hs⟩ | ⟨sid, mid, now, hs⟩ | ⟨sid, mid, now, hs⟩
  · simp [lastPingOf, hs]
  · unfold lastPingOf
    rw [hs, find?_append_singleton]
    unfold closedOf at h
    cases hfind : st.sessions.find? (fun t => t.id == i) with
    | none => rw [hfind] at h; simp at h
    | some t => simp
  · unfold lastPingOf
    rw [hs]
    exact find?_map_updateFirstMatch Session.lastPing (sessionQuery sid mid)
      (fun t => { t with closedAt := now }) (fun t => rfl) (fun t => rfl)
      st.sessions i
  · unfold lastPingOf
    rw [hs]
    exact find?_map_updateFirstMatch_of_closed Session.lastPing
      (sessionQuery sid mid) (fun t => { t with lastPing := now })
      (fun t ht => ((sessionQuery_eq_true_iff sid mid t).mp ht).2.2)
      (fun t => rfl) st.sessions i c h hc

/-- Unfold one step of a truncated run. -/
theorem runOps_take_succ (st : Store) (ops : List Op) (n : Nat) :
    runOps st (ops.take (n + 1))
      = ((ops[n]?.map fun op => apiStep (runOps st (ops.take n)) op).getD
          (runOps st (ops.take n))) := by
  rw [runOps, List.take_succ, List.foldl_append]
  cases h : ops[n]? <;> simp [h, runOps]

/-- On a store where every session with the given id is closed, closing with
a request naming that id responds 400 and leaves the store untouched. -/
theorem closeSessionHandler_closed_400 (st : Store) (r : ApiRequest)
    (now : Nat) (sid : ObjectId)
    (hsid : objectIdHex (formValue r.postForm "session_id") = some sid)
    (hall : ∀ t ∈ st.sessions, t.id = sid → t.closedAt ≠ 0) :
    ∃ res, closeSessionHandler st r now = some res ∧
      res.resp.status = 400 ∧ res.store = st := by
  unfold closeSessionHandler
  cases hbad : sidFormBad r.postForm with
  | true =>
    exact ⟨⟨⟨400, "Retry with POST parameters: session_id, machine_id\n"⟩, st, 0⟩,
      by simp [hbad], rfl, rfl⟩
  | false =>
    have hhex := isObjectIdHex_of_objectIdHex hsid
    have hany : st.sessions.any (sessionQuery sid (formValue r.postForm "machine_id"))
        = false := by
      rw [List.any_eq_false]
      intro t ht hq
      obtain ⟨h1, _, h3⟩ := (sessionQuery_eq_true_iff _ _ t).mp hq
      exact hall t ht h1 h3
    have hclose : closeSession st sid (formValue r.postForm "machine_id") now
        = .error .notFound := by
      unfold closeSession
      rw [if_neg (by simp [hany])]
    exact ⟨⟨⟨400, "Session " ++ formValue r.postForm "session_id"
        ++ " does not exist or is already closed\n"⟩, st, 1⟩,
      by simp [hbad, hhex, hsid, hclose], rfl, rfl⟩

/-- On a store where every session with the given id is closed, pinging with
a request naming that id responds 400 and leaves the store untouched. -/
theorem pingSessionHandler_closed_400 (st : Store) (r : ApiRequest)
    (now : Nat) (sid : ObjectId)
    (hsid : objectIdHex (formValue r.postForm "session_id") = some sid)
    (hall : ∀ t ∈ st.sessions, t.id = sid → t.closedAt ≠ 0) :
    ∃ res, pingSessionHandler st r now = some res ∧
      res.resp.status = 400 ∧ res.store = st := by
  unfold pingSessionHandler
  cases hbad : sidFormBad r.postForm with
  | true =>
    exact ⟨⟨⟨400, "Retry with POST parameters: session_id, machine_id\n"⟩, st, 0⟩,
      by simp [hbad], rfl, rfl⟩
  | false =>
    have hhex := isObjectIdHex_of_objectIdHex hsid
    have hany : st.sessions.any (sessionQuery sid (formValue r.postForm "machine_id"))
        = false := by
      rw [List.any_eq_false]
      intro t ht hq
      obtain ⟨h1, _, h3⟩ := (sessionQuery_eq_true_iff _ _ t).mp hq
      exact hall t ht h1 h3
    have hping : pingSession st sid (formValue r.postForm "machine_id") now
        = .error .notFound := by
      unfold pingSession
      rw [if_neg (by simp [hany])]
    exact ⟨⟨⟨400, "Session " ++ formValue r.postForm "session_id"
        ++ " does not exist or is already closed\n"⟩, st, 1⟩,
      by simp [hbad, hhex, hsid, hping], rfl, rfl⟩

/-! ## Validation helpers -/

/-- The installation validation passes iff the field-name set is exactly the
required one and every required value is non-empty. -/
theorem installFormBad_false_iff (form : Form) :
    installFormBad form = false ↔
      (formKeys form
          = {"machine_id", "xmppvox_version", "dosvox_info", "machine_info"}
        ∧ formValue form "machine_id" ≠ "" ∧ formValue form "xmppvox_version" ≠ ""
        ∧ formValue form "dosvox_info" ≠ "" ∧ formValue form "machine_info" ≠ "") := by
  constructor
  · intro h
    unfold installFormBad at h
    simp only [Bool.or_eq_false_iff] at h
    obtain ⟨⟨⟨⟨hlen, h1⟩, h2⟩, h3⟩, h4⟩ := h
    have hlen' : formLen form = 4 := by simpa using hlen
    have h1' : formValue form "machine_id" ≠ "" := by simpa using h1
    have h2' : formValue form "xmppvox_version" ≠ "" := by simpa using h2
    have h3' : formValue form "dosvox_info" ≠ "" := by simpa using h3
    have h4' : formValue form "machine_info" ≠ "" := by simpa using h4
    have hsub : ({"machine_id", "xmppvox_version", "dosvox_info", "machine_info"} :
        Finset String) ⊆ formKeys form := by
      intro k hk
      simp only [Finset.mem_insert, Finset.mem_singleton] at hk
      rcases hk with rfl | rfl | rfl | rfl
      · exact mem_formKeys_of_formValue_ne form _ h1'
      · exact mem_formKeys_of_formValue_ne form _ h2'
      · exact mem_formKeys_of_formValue_ne form _ h3'
      · exact mem_formKeys_of_formValue_ne form _ h4'
    exact ⟨formKeys_eq_of_subset_card form _ hsub (by rw [hlen']; decide),
      h1', h2', h3', h4'⟩
  · rintro ⟨hkeys, h1, h2, h3, h4⟩
    have hcard : formLen form = 4 := by rw [formLen_eq_card, hkeys]; decide
    unfold installFormBad
    simp [hcard, h1, h2, h3, h4]

/-- The session-creation validation passes iff the field-name set is exactly
the required one and every required value is non-empty. -/
theorem sessFormBad_false_iff (form : Form) :
    sessFormBad form = false ↔
      (formKeys form = {"jid", "machine_id", "xmppvox_version"}
        ∧ formValue form "jid" ≠ "" ∧ formValue form "machine_id" ≠ ""
        ∧ formValue form "xmppvox_version" ≠ "") := by
  constructor
  · intro h
    unfold sessFormBad at h
    simp only [Bool.or_eq_false_iff] at h
    obtain ⟨⟨⟨hlen, h1⟩, h2⟩, h3⟩ := h
    have hlen' : formLen form = 3 := by simpa using hlen
    have h1' : formValue form "jid" ≠ "" := by simpa using h1
    have h2' : formValue form "machine_id" ≠ "" := by simpa using h2
    have h3' : formValue form "xmppvox_version" ≠ "" := by simpa using h3
    have hsub : ({"jid", "machine_id", "xmppvox_version"} : Finset String)
        ⊆ formKeys form := by
      intro k hk
      simp only [Finset.mem_insert, Finset.mem_singleton] at hk
      rcases hk with rfl | rfl | rfl
      · exact mem_formKeys_of_formValue_ne form _ h1'
      · exact mem_formKeys_of_formValue_ne form _ h2'
      · exact mem_formKeys_of_formValue_ne form _ h3'
    exact ⟨formKeys_eq_of_subset_card form _ hsub (by rw [hlen']; decide),
      h1', h2', h3'⟩
  · rintro ⟨hkeys, h1, h2, h3⟩
    have hcard : formLen form = 3 := by rw [formLen_eq_card, hkeys]; decide
    unfold sessFormBad
    simp [hcard, h1, h2, h3]

/-- The close/ping validation passes iff the field-name set is exactly the
required one and every required value is non-empty. -/
theorem sidFormBad_false_iff (form : Form) :
    sidFormBad form = false ↔
      (formKeys form = {"session_id", "machine_id"}
        ∧ formValue form "session_id" ≠ "" ∧ formValue form "machine_id" ≠ "") := by
  constructor
  · intro h
    unfold sidFormBad at h
    simp only [Bool.or_eq_false_iff] at h
    obtain ⟨⟨hlen, h1⟩, h2⟩ := h
    have hlen' : formLen form = 2 := by simpa using hlen
    have h1' : formValue form "session_id" ≠ "" := by simpa using h1
    have h2' : formValue form "machine_id" ≠ "" := by simpa using h2
    have hsub : ({"session_id", "machine_id"} : Finset String) ⊆ formKeys form := by
      intro k hk
      simp only [Finset.mem_insert, Finset.mem_singleton] at hk
      rcases hk with rfl | rfl
      · exact mem_formKeys_of_formValue_ne form _ h1'
      · exact mem_formKeys_of_formValue_ne form _ h2'
    exact ⟨formKeys_eq_of_subset_card form _ hsub (by rw [hlen']; decide), h1', h2'⟩
  · rintro ⟨hkeys, h1, h2⟩
    have hcard : formLen form = 2 := by rw [formLen_eq_card, hkeys]; decide
    unfold sidFormBad
    simp [hcard, h1, h2]

/-- A failed validation makes the installation handler answer 400 with the
store untouched and no storage call. -/
theorem newInstallationHandler_invalid (st : Store) (form : Form) (now : Nat)
    (h : installFormBad form = true) :
    newInstallationHandler st form now
      = ⟨⟨400, "Retry with POST parameters: machine_id, xmppvox_version, dosvox_info, machine_info\n"⟩, st, 0⟩ := by
  unfold newInstallationHandler
  simp [h]

/-- A failed validation makes the session-creation handler answer 400 with
the store untouched and no storage call. -/
theorem newSessionHandler_invalid (st : Store) (r : ApiRequest)
    (freshId : ObjectId) (now : Nat) (h : sessFormBad r.postForm = true) :
    newSessionHandler st r freshId now
      = ⟨⟨400, "Retry with POST parameters: jid, machine_id, xmppvox_version\n"⟩, st, 0⟩ := by
  unfold newSessionHandler
  simp [h]

/-- A failed validation makes the close handler answer 400 with the store
untouched and no storage call. -/
theorem closeSessionHandler_invalid (st : Store) (r : ApiRequest) (now : Nat)
    (h : sidFormBad r.postForm = true) :
    closeSessionHandler st r now
      = some ⟨⟨400, "Retry with POST parameters: session_id, machine_id\n"⟩, st, 0⟩ := by
  unfold closeSessionHandler
  simp [h]

/-- A failed validation makes the ping handler answer 400 with the store
untouched and no storage call. -/
theorem pingSessionHandler_invalid (st : Store) (r : ApiRequest) (now : Nat)
    (h : sidFormBad r.postForm = true) :
    pingSessionHandler st r now
      = some ⟨⟨400, "Retry with POST parameters: session_id, machine_id\n"⟩, st, 0⟩ := by
  unfold pingSessionHandler
  simp [h]

/-- With a valid form and well-formed id but no matching open owned session,
the close handler produces exactly the collapsed not-found 400 response. -/
theorem closeSessionHandler_notFound (st : Store) (r : ApiRequest) (now : Nat)
    (sid : ObjectId)
    (hsid : objectIdHex (formValue r.postForm "session_id") = some sid)
    (hbadf : sidFormBad r.postForm = false)
    (hany : st.sessions.any (sessionQuery sid (formValue r.postForm "machine_id"))
      = false) :
    closeSessionHandler st r now
      = some ⟨⟨400, "Session " ++ formValue r.postForm "session_id"
          ++ " does not exist or is already closed\n"⟩, st, 1⟩ := by
  have hhex := isObjectIdHex_of_objectIdHex hsid
  have hclose : closeSession st sid (formValue r.postForm "machine_id") now
      = .error .notFound := by
    unfold closeSession
    rw [if_neg (by simp [hany])]
  unfold closeSessionHandler
  simp [hbadf, hhex, hsid, hclose]

/-- With a valid form and well-formed id but no matching open owned session,
the ping handler produces exactly the collapsed not-found 400 response. -/
theorem pingSessionHandler_notFound (st : Store) (r : ApiRequest) (now : Nat)
    (sid : ObjectId)
    (hsid : objectIdHex (formValue r.postForm "session_id") = some sid)
    (hbadf : sidFormBad r.postForm = false)
    (hany : st.sessions.any (sessionQuery sid (formValue r.postForm "machine_id"))
      = false) :
    pingSessionHandler st r now
      = some ⟨⟨400, "Session " ++ formValue r.postForm "session_id"
          ++ " does not exist or is already closed\n"⟩, st, 1⟩ := by
  have hhex := isObjectIdHex_of_objectIdHex hsid
  have hping : pingSession st sid (formValue r.postForm "machine_id") now
      = .error .notFound := by
    unfold pingSession
    rw [if_neg (by simp [hany])]
  unfold pingSessionHandler
  simp [hbadf, hhex, hsid, hping]

/-- The close handler always answers (its panic branch is unreachable). -/
theorem closeSessionHandler_isSome (st : Store) (r : ApiRequest) (now : Nat) :
    (closeSessionHandler st r now).isSome = true := by
  unfold closeSessionHandler
  cases hbad : sidFormBad r.postForm with
  | true => simp
  | false =>
    cases hhex : isObjectIdHex (formValue r.postForm "session_id") with
    | false => simp
    | true =>
      obtain ⟨d, hd⟩ := objectIdHex_isSome_of_isObjectIdHex _ hhex
      cases hcl : closeSession st d (formValue r.postForm "machine_id") now with
      | ok st1 => simp [hd, hcl]
      | error e => cases e <;> simp [hd, hcl]

/-- The ping handler always answers (its panic branch is unreachable). -/
theorem pingSessionHandler_isSome (st : Store) (r : ApiRequest) (now : Nat) :
    (pingSessionHandler st r now).isSome = true := by
  unfold pingSessionHandler
  cases hbad : sidFormBad r.postForm with
  | true => simp
  | false =>
    cases hhex : isObjectIdHex (formValue r.postForm "session_id") with
    | false => simp
    | true =>
      obtain ⟨d, hd⟩ := objectIdHex_isSome_of_isObjectIdHex _ hhex
      cases hpg : pingSession st d (formValue r.postForm "machine_id") now with
      | ok st1 => simp [hd, hpg]
      | error e => cases e <;> simp [hd, hpg]

/-! ## Concrete fixtures used by the witnesses -/

/-- A fixed request snapshot. -/
def exReq0 : HttpRequest :=
  ⟨"POST", "/1/session/new", [], "host", [], "addr"⟩

/-- A fixed object id (bytes 0..11); its hex form is
`"000102030405060708090a0b"`. -/
def exId : ObjectId := [0, 1, 2, 3, 4, 5, 6, 7, 8, 9, 10, 11]

/-- An open session owned by machine `M1`. -/
def exOpenSession : Session := ⟨exId, 1, 0, 0, "a@b", "M1", "1.0", exReq0⟩

/-- The same session, closed at time 5 with a last ping at time 2. -/
def exClosedSession : Session := ⟨exId, 1, 5, 2, "a@b", "M1", "1.0", exReq0⟩

/-- A store holding only the open session. -/
def exStoreOpen : Store := ⟨[], [exOpenSession]⟩

/-- A store holding only the closed session. -/
def exStoreClosed : Store := ⟨[], [exClosedSession]⟩

/-- A well-formed close/ping form for `exId` owned by `M1`. -/
def exCloseForm : Form :=
  [("session_id", "000102030405060708090a0b"), ("machine_id", "M1")]

/-- A close/ping form whose session id is not valid hex. -/
def exBadIdForm : Form := [("session_id", "xyz"), ("machine_id", "M1")]

/-- An `ApiRequest` carrying the given post form. -/
def exApiReq (form : Form) : ApiRequest :=
  ⟨"POST", "/1/session/close", [], "host", form, form, "addr"⟩

/-! ## The claims -/

/-- **C1.** For every store state and call `CloseSession(sessionId, machineId)`:
the call succeeds iff the store has a session with that id, that owner and an
unset closed timestamp; on success exactly that session's closed timestamp is
set to the current time (all other records are untouched); otherwise the call
fails with NotFound — wrong id, wrong owner and already-closed all take this
same branch, and the failing operation yields no modified store. -/
theorem closeSession_success_iff_matching_open_session
    (st : Store) (sid : ObjectId) (mid : String) (now : Nat) :
    ((∃ st1, closeSession st sid mid now = .ok st1) ↔
      ∃ t ∈ st.sessions, t.id = sid ∧ t.machineId = mid ∧ t.closedAt = 0)
    ∧ ((¬ ∃ t ∈ st.sessions, t.id = sid ∧ t.machineId = mid ∧ t.closedAt = 0) →
        closeSession st sid mid now = .error .notFound)
    ∧ ((∃ t ∈ st.sessions, t.id = sid ∧ t.machineId = mid ∧ t.closedAt = 0) →
        ∃ l1 t l2, st.sessions = l1 ++ t :: l2 ∧
          (∀ u ∈ l1, ¬(u.id = sid ∧ u.machineId = mid ∧ u.closedAt = 0)) ∧
          t.id = sid ∧ t.machineId = mid ∧ t.closedAt = 0 ∧
          closeSession st sid mid now
            = .ok { st with sessions := l1 ++ { t with closedAt := now } :: l2 }) := by
  have hiff : st.sessions.any (sessionQuery sid mid) = true ↔
      ∃ t ∈ st.sessions, t.id = sid ∧ t.machineId = mid ∧ t.closedAt = 0 := by
    rw [List.any_eq_true]
    constructor
    · rintro ⟨t, ht, hq⟩
      exact ⟨t, ht, (sessionQuery_eq_true_iff sid mid t).mp hq⟩
    · rintro ⟨t, ht, hq⟩
      exact ⟨t, ht, (sessionQuery_eq_true_iff sid mid t).mpr hq⟩
  refine ⟨?_, ?_, ?_⟩
  · constructor
    · rintro ⟨st1, h1⟩
      unfold closeSession at h1
      split at h1
      · rename_i hany
        exact hiff.mp hany
      · cases h1
    · intro hex
      unfold closeSession
      rw [if_pos (hiff.mpr hex)]
      exact ⟨_, rfl⟩
  · intro hno
    unfold closeSession
    rw [if_neg (fun hany => hno (hiff.mp hany))]
  · intro hex
    have hany := hiff.mpr hex
    obtain ⟨l1, t, l2, hl, hl1, ht, hup⟩ :=
      updateFirstMatch_decomp (sessionQuery sid mid)
        (fun u => { u with closedAt := now }) st.sessions hany
    obtain ⟨h1, h2, h3⟩ := (sessionQuery_eq_true_iff sid mid t).mp ht
    refine ⟨l1, t, l2, hl, ?_, h1, h2, h3, ?_⟩
    · intro u hu hq
      have hfalse := hl1 u hu
      rw [(sessionQuery_eq_true_iff sid mid u).mpr hq] at hfalse
      cases hfalse
    · unfold closeSession
      rw [if_pos hany]
      rw [hup]

/-- Witness for C1: on a store whose only session with the requested id is
already closed, the call fails with NotFound. -/
theorem closeSession_success_iff_matching_open_session_witness :
    closeSession exStoreClosed exId "M1" 9 = .error .notFound :=
  (closeSession_success_iff_matching_open_session exStoreClosed exId "M1" 9).2.1
    (by decide)

/-- The uptime body computed the way the spec words it: from total whole
seconds, minutes, hours and days of the elapsed duration. -/
def uptimeClaimBody (ns : Nat) : String :=
  toString (ns / 1000000000 / 60 / 60 / 24) ++ "d"
    ++ pad2 (ns / 1000000000 / 60 / 60 % 24) ++ "h"
    ++ pad2 (ns / 1000000000 / 60 % 60) ++ "m"
    ++ pad2 (ns / 1000000000 % 60) ++ "s"

/-- **C8.** For every elapsed duration, `/uptime` answers 200 and the body
carries the uptime formatted as `days d hours(2) h minutes(2) m seconds(2) s`
where days is total hours over 24 rounded down, hours is total hours mod 24,
minutes is total minutes mod 60, and seconds is total seconds mod 60, each of
the last three zero-padded to two digits. -/
theorem uptime_format_days_hours_minutes_seconds (ns : Nat) :
    uptimeResponse ns = ⟨200, "API uptime: " ++ uptimeClaimBody ns ++ "\n"⟩ := by
  unfold uptimeResponse uptimeClaimBody
  norm_num [Nat.div_div_eq_div_mul, String.append_assoc]
  rw [show ("s" ++ "\n" : String) = "s\n" from rfl]

/-- **C10.** The close and ping handlers convert the session-id string only
after the hex-validity check, so they are total: every input produces a
response (the conversion's panic branch is unreachable), and a malformed id
yields 400 with no store call. -/
theorem close_ping_handlers_total (st : Store) (r : ApiRequest) (now : Nat) :
    (∃ res, closeSessionHandler st r now = some res)
    ∧ (∃ res, pingSessionHandler st r now = some res)
    ∧ (sidFormBad r.postForm = false →
        isObjectIdHex (formValue r.postForm "session_id") = false →
        closeSessionHandler st r now
          = some ⟨⟨400, "Invalid session id "
              ++ formValue r.postForm "session_id" ++ "\n"⟩, st, 0⟩
        ∧ pingSessionHandler st r now
          = some ⟨⟨400, "Invalid session id "
              ++ formValue r.postForm "session_id" ++ "\n"⟩, st, 0⟩) := by
  refine ⟨Option.isSome_iff_exists.mp (closeSessionHandler_isSome st r now),
    Option.isSome_iff_exists.mp (pingSessionHandler_isSome st r now), ?_⟩
  intro hbad hhex
  constructor
  · unfold closeSessionHandler
    simp [hbad, hhex]
  · unfold pingSessionHandler
    simp [hbad, hhex]

/-- Witness for C10: a request whose session id `"xyz"` is not hex gets the
invalid-id 400 answer with the store untouched and no store call. -/
theorem close_ping_handlers_total_witness :
    closeSessionHandler exStoreOpen (exApiReq exBadIdForm) 3
      = some ⟨⟨400, "Invalid session id "
          ++ formValue (exApiReq exBadIdForm).postForm "session_id" ++ "\n"⟩,
        exStoreOpen, 0⟩ :=
  ((close_ping_handlers_total exStoreOpen (exApiReq exBadIdForm) 3).2.2
    (by decide) (by decide)).1

/-- **C2.** Along any sequence of API operations a session's closed
timestamp, once set, keeps its exact value forever (so it changes at most
once), and any change between consecutive states goes from unset to set;
moreover closing a session all of whose records with the requested id are
already closed answers 400 and leaves the closed timestamp at the value the
first successful close gave it. -/
theorem session_closedAt_set_at_most_once (st : Store) (ops : List Op)
    (i : ObjectId) :
    (∀ m n c, m ≤ n → closedOf (runOps st (ops.take m)) i = some c → c ≠ 0 →
      closedOf (runOps st (ops.take n)) i = some c)
    ∧ (∀ n c c', closedOf (runOps st (ops.take n)) i = some c →
        closedOf (runOps st (ops.take (n + 1))) i = some c' → c ≠ c' →
        c = 0 ∧ c' ≠ 0)
    ∧ (∀ r now c, objectIdHex (formValue r.postForm "session_id") = some i →
        (∀ t ∈ st.sessions, t.id = i → t.closedAt ≠ 0) →
        closedOf st i = some c →
        ∃ res, closeSessionHandler st r now = some res ∧
          res.resp.status = 400 ∧ closedOf res.store i = some c) := by
  refine ⟨?_, ?_, ?_⟩
  · intro m n c hmn hm hc
    induction n, hmn using Nat.le_induction with
    | base => exact hm
    | succ n hmn ih =>
      rw [runOps_take_succ]
      cases hop : ops[n]? with
      | none => simpa using ih
      | some op =>
        simp only [Option.map_some', Option.getD_some]
        rcases apiStep_closedOf (runOps st (ops.take n)) op i with
          h1 | ⟨h0, _⟩ | ⟨hnone, _⟩
        · rw [h1]
          exact ih
        · rw [ih] at h0
          simp only [Option.some.injEq] at h0
          exact absurd h0 hc
        · rw [ih] at hnone
          cases hnone
  · intro n c c' hn hn1 hne
    rw [runOps_take_succ] at hn1
    cases hop : ops[n]? with
    | none =>
      rw [hop] at hn1
      simp only [Option.map_none', Option.getD_none] at hn1
      rw [hn] at hn1
      simp only [Option.some.injEq] at hn1
      exact absurd hn1 hne
    | some op =>
      rw [hop] at hn1
      simp only [Option.map_some', Option.getD_some] at hn1
      rcases apiStep_closedOf (runOps st (ops.take n)) op i with
        h1 | ⟨h0, _⟩ | ⟨hnone, _⟩
      · rw [h1, hn] at hn1
        simp only [Option.some.injEq] at hn1
        exact absurd hn1 hne
      · rw [hn] at h0
        simp only [Option.some.injEq] at h0
        refine ⟨h0, fun hc0 => hne ?_⟩
        rw [h0, hc0]
      · rw [hn] at hnone
        cases hnone
  · intro r now c hsid hall hc
    obtain ⟨res, hres, h400, hstore⟩ :=
      closeSessionHandler_closed_400 st r now i hsid hall
    exact ⟨res, hres, h400, by rw [hstore]; exact hc⟩

/-- Witness for C2: re-closing the already-closed example session answers
400 and keeps its closed timestamp at 5. -/
theorem session_closedAt_set_at_most_once_witness :
    ∃ res, closeSessionHandler exStoreClosed (exApiReq exCloseForm) 9 = some res ∧
      res.resp.status = 400 ∧ closedOf res.store exId = some 5 :=
  (session_closedAt_set_at_most_once exStoreClosed [] exId).2.2
    (exApiReq exCloseForm) 9 5 (by decide) (by decide) (by decide)

/-- **C4.** Along any sequence of API operations a session's last-ping
timestamp never changes in a step starting with its closed timestamp set;
pinging a session all of whose records with the requested id are closed
answers 400 and leaves the last-ping timestamp unchanged; and a successful
ping (status 200) happens only when the store holds a session with the
requested id and owner whose closed timestamp is unset. -/
theorem lastPing_only_advances_while_open (st : Store) (ops : List Op)
    (i : ObjectId) :
    (∀ n c, closedOf (runOps st (ops.take n)) i = some c → c ≠ 0 →
      lastPingOf (runOps st (ops.take (n + 1))) i
        = lastPingOf (runOps st (ops.take n)) i)
    ∧ (∀ r now, objectIdHex (formValue r.postForm "session_id") = some i →
        (∀ t ∈ st.sessions, t.id = i → t.closedAt ≠ 0) →
        ∃ res, pingSessionHandler st r now = some res ∧
          res.resp.status = 400 ∧ lastPingOf res.store i = lastPingOf st i)
    ∧ (∀ r now res, pingSessionHandler st r now = some res →
        res.resp.status = 200 →
        ∃ t ∈ st.sessions,
          objectIdHex (formValue r.postForm "session_id") = some t.id
          ∧ t.machineId = formValue r.postForm "machine_id" ∧ t.closedAt = 0) := by
  refine ⟨?_, ?_, ?_⟩
  · intro n c hn hc
    rw [runOps_take_succ]
    cases hop : ops[n]? with
    | none => simp
    | some op =>
      simp only [Option.map_some', Option.getD_some]
      exact apiStep_lastPingOf (runOps st (ops.take n)) op i c hn hc
  · intro r now hsid hall
    obtain ⟨res, hres, h400, hstore⟩ :=
      pingSessionHandler_closed_400 st r now i hsid hall
    exact ⟨res, hres, h400, by rw [hstore]⟩
  · intro r now res hres h200
    unfold pingSessionHandler at hres
    split at hres
    · cases hres
      simp at h200
    · split at hres
      · cases hres
        simp at h200
      · split at hres
        · cases hres
        · rename_i sid heq
          split at hres
          · rename_i st1 hok
            unfold pingSession at hok
            split at hok
            · rename_i hany
              obtain ⟨t, ht, hq⟩ := List.any_eq_true.mp hany
              obtain ⟨h1, h2, h3⟩ := (sessionQuery_eq_true_iff _ _ t).mp hq
              exact ⟨t, ht, by rw [h1]; exact heq, h2, h3⟩
            · cases hok
          · cases hres
            simp at h200
          · cases hres
            simp at h200

/-- Witness for C4: pinging the closed example session answers 400 and keeps
its last-ping timestamp at 2. -/
theorem lastPing_only_advances_while_open_witness :
    ∃ res, pingSessionHandler exStoreClosed (exApiReq exCloseForm) 9 = some res ∧
      res.resp.status = 400 ∧
      lastPingOf res.store exId = lastPingOf exStoreClosed exId :=
  (lastPing_only_advances_while_open exStoreClosed [] exId).2.1
    (exApiReq exCloseForm) 9 (by decide) (by decide)

/-- `find?` over installations with a single appended record. -/
theorem find?_installations_append (l : List Installation) (j : Installation)
    (m : String) (hjm : j.machineId = m)
    (hfresh : ∀ k ∈ l, k.machineId ≠ m) :
    (l ++ [j]).find? (fun k => k.machineId == m) = some j := by
  rw [List.find?_append]
  have hnone : l.find? (fun k => k.machineId == m) = none :=
    List.find?_eq_none.mpr (fun k hk => by simpa using hfresh k hk)
  rw [hnone]
  simp [List.find?, hjm]

/-- A fully valid installation request inserts exactly the constructed
record and answers 200 with the machine id. -/
theorem newInstallationHandler_ok (st : Store) (form : Form) (now : Nat)
    (d e : List (String × String))
    (hok : installFormBad form = false)
    (hd : unmarshalStringMap (formValue form "dosvox_info") = some d)
    (he : unmarshalStringMap (formValue form "machine_info") = some e)
    (hfresh : ∀ j ∈ st.installations, j.machineId ≠ formValue form "machine_id") :
    newInstallationHandler st form now
      = ⟨⟨200, formValue form "machine_id" ++ "\n"⟩,
        { st with installations := st.installations
            ++ [NewInstallation (formValue form "machine_id")
                (formValue form "xmppvox_version") d e now] }, 1⟩ := by
  have hins : insertInstallation st
      (NewInstallation (formValue form "machine_id")
        (formValue form "xmppvox_version") d e now)
      = .ok { st with installations := st.installations
          ++ [NewInstallation (formValue form "machine_id")
              (formValue form "xmppvox_version") d e now] } := by
    unfold insertInstallation
    rw [if_neg ?hn]
    case hn =>
      intro hany
      obtain ⟨j, hj, hb⟩ := List.any_eq_true.mp hany
      exact hfresh j hj (by simpa using hb)
  unfold newInstallationHandler
  rw [if_neg (by simp [hok])]
  simp only [hd, he, hins]

/-- **C3.** For each mutating endpoint, the code's form validation passes
iff the set of submitted field names exactly equals that endpoint's required
field set and every required value is a non-empty string; and any validation
failure answers 400 before any storage-gateway call (zero calls), with the
store unchanged. -/
theorem mutating_endpoint_validation_exact_fields
    (st : Store) (form : Form) (r : ApiRequest) (freshId : ObjectId) (now : Nat) :
    (installFormBad form = false ↔
      (formKeys form
          = {"machine_id", "xmppvox_version", "dosvox_info", "machine_info"}
        ∧ formValue form "machine_id" ≠ "" ∧ formValue form "xmppvox_version" ≠ ""
        ∧ formValue form "dosvox_info" ≠ "" ∧ formValue form "machine_info" ≠ ""))
    ∧ (sessFormBad form = false ↔
      (formKeys form = {"jid", "machine_id", "xmppvox_version"}
        ∧ formValue form "jid" ≠ "" ∧ formValue form "machine_id" ≠ ""
        ∧ formValue form "xmppvox_version" ≠ ""))
    ∧ (sidFormBad form = false ↔
      (formKeys form = {"session_id", "machine_id"}
        ∧ formValue form "session_id" ≠ "" ∧ formValue form "machine_id" ≠ ""))
    ∧ (installFormBad form = true →
        newInstallationHandler st form now
          = ⟨⟨400, "Retry with POST parameters: machine_id, xmppvox_version, dosvox_info, machine_info\n"⟩, st, 0⟩)
    ∧ (sessFormBad r.postForm = true →
        newSessionHandler st r freshId now
          = ⟨⟨400, "Retry with POST parameters: jid, machine_id, xmppvox_version\n"⟩, st, 0⟩)
    ∧ (sidFormBad r.postForm = true →
        closeSessionHandler st r now
          = some ⟨⟨400, "Retry with POST parameters: session_id, machine_id\n"⟩, st, 0⟩
        ∧ pingSessionHandler st r now
          = some ⟨⟨400, "Retry with POST parameters: session_id, machine_id\n"⟩, st, 0⟩) :=
  ⟨installFormBad_false_iff form, sessFormBad_false_iff form, sidFormBad_false_iff form,
    newInstallationHandler_invalid st form now,
    newSessionHandler_invalid st r freshId now,
    fun h => ⟨closeSessionHandler_invalid st r now h,
      pingSessionHandler_invalid st r now h⟩⟩

/-- A close/ping form with an extra unknown field. -/
def exExtraForm : Form :=
  [("session_id", "000102030405060708090a0b"), ("machine_id", "M1"),
    ("extra_invalid_field", "x")]

/-- Witness for C3: the extra field makes the close handler answer 400 with
the store unchanged and zero store calls. -/
theorem mutating_endpoint_validation_exact_fields_witness :
    closeSessionHandler exStoreOpen (exApiReq exExtraForm) 3
      = some ⟨⟨400, "Retry with POST parameters: session_id, machine_id\n"⟩,
        exStoreOpen, 0⟩ :=
  ((mutating_endpoint_validation_exact_fields exStoreOpen exExtraForm
      (exApiReq exExtraForm) exId 3).2.2.2.2.2 (by decide)).1

/-- **C5.** Two well-formed installation requests with the same machine id:
the first answers 200 and persists its record; the second answers 400 and
the stored record stays exactly the one the first request persisted. -/
theorem duplicate_installation_not_overwritten
    (st : Store) (form1 form2 : Form) (now1 now2 : Nat)
    (h1ok : installFormBad form1 = false)
    (h2ok : installFormBad form2 = false)
    (hm : formValue form2 "machine_id" = formValue form1 "machine_id")
    (d1 e1 : List (String × String))
    (hd1 : unmarshalStringMap (formValue form1 "dosvox_info") = some d1)
    (he1 : unmarshalStringMap (formValue form1 "machine_info") = some e1)
    (d2 e2 : List (String × String))
    (hd2 : unmarshalStringMap (formValue form2 "dosvox_info") = some d2)
    (he2 : unmarshalStringMap (formValue form2 "machine_info") = some e2)
    (hfresh : ∀ j ∈ st.installations, j.machineId ≠ formValue form1 "machine_id") :
    (newInstallationHandler st form1 now1).resp.status = 200
    ∧ installationOf (newInstallationHandler st form1 now1).store
        (formValue form1 "machine_id")
      = some (NewInstallation (formValue form1 "machine_id")
          (formValue form1 "xmppvox_version") d1 e1 now1)
    ∧ (newInstallationHandler (newInstallationHandler st form1 now1).store
        form2 now2).resp.status = 400
    ∧ (newInstallationHandler (newInstallationHandler st form1 now1).store
        form2 now2).store = (newInstallationHandler st form1 now1).store := by
  have hh1 := newInstallationHandler_ok st form1 now1 d1 e1 h1ok hd1 he1 hfresh
  have hfind : installationOf
      { st with installations := st.installations
          ++ [NewInstallation (formValue form1 "machine_id")
              (formValue form1 "xmppvox_version") d1 e1 now1] }
      (formValue form1 "machine_id")
      = some (NewInstallation (formValue form1 "machine_id")
          (formValue form1 "xmppvox_version") d1 e1 now1) := by
    unfold installationOf
    exact find?_installations_append st.installations _ _ rfl hfresh
  have hdup : insertInstallation
      { st with installations := st.installations
          ++ [NewInstallation (formValue form1 "machine_id")
              (formValue form1 "xmppvox_version") d1 e1 now1] }
      (NewInstallation (formValue form2 "machine_id")
        (formValue form2 "xmppvox_version") d2 e2 now2) = .error .dup := by
    unfold insertInstallation
    rw [if_pos ?hp]
    case hp =>
      refine List.any_eq_true.mpr
        ⟨NewInstallation (formValue form1 "machine_id")
          (formValue form1 "xmppvox_version") d1 e1 now1,
          List.mem_append_right _ (by simp), ?_⟩
      simp [NewInstallation, hm]
  have hh2 : newInstallationHandler
      { st with installations := st.installations
          ++ [NewInstallation (formValue form1 "machine_id")
              (formValue form1 "xmppvox_version") d1 e1 now1] } form2 now2
      = ⟨⟨400, "Installation already registered\n"⟩,
        { st with installations := st.installations
            ++ [NewInstallation (formValue form1 "machine_id")
                (formValue form1 "xmppvox_version") d1 e1 now1] }, 1⟩ := by
    unfold newInstallationHandler
    rw [if_neg (by simp [h2ok])]
    simp only [hd2, he2, hdup]
  refine ⟨by rw [hh1], ?_, ?_, ?_⟩
  · rw [hh1]
    exact hfind
  · rw [hh1]
    dsimp only
    rw [hh2]
  · rw [hh1]
    dsimp only
    rw [hh2]

/-- A well-formed installation form with `null` info fields. -/
def exInstallForm : Form :=
  [("machine_id", "M1"), ("xmppvox_version", "1.0"),
    ("dosvox_info", "null"), ("machine_info", "null")]

/-- Witness for C5: registering the example machine twice, the second call
answers 400. -/
theorem duplicate_installation_not_overwritten_witness :
    (newInstallationHandler (newInstallationHandler ⟨[], []⟩ exInstallForm 4).store
      exInstallForm 7).resp.status = 400 :=
  (duplicate_installation_not_overwritten ⟨[], []⟩ exInstallForm exInstallForm 4 7
    (by decide) (by decide) (by decide) [] [] (by decide) (by decide)
    [] [] (by decide) (by decide) (by decide)).2.2.1

/-- **C6.** For session/close and session/ping the failure causes are
observationally indistinguishable: running the same valid request against a
store with no session of that id, and against a store where sessions of that
id exist but have a different owner or are already closed, produces
identical responses (status 400 and the same body). -/
theorem close_ping_failure_indistinguishable
    (st1 st2 : Store) (r : ApiRequest) (now : Nat) (sid : ObjectId)
    (hbadf : sidFormBad r.postForm = false)
    (hsid : objectIdHex (formValue r.postForm "session_id") = some sid)
    (hnone : ∀ t ∈ st1.sessions, t.id ≠ sid)
    (_hexist : ∃ t ∈ st2.sessions, t.id = sid)
    (hbad2 : ∀ t ∈ st2.sessions, t.id = sid →
      (t.machineId ≠ formValue r.postForm "machine_id" ∨ t.closedAt ≠ 0)) :
    (∃ res1 res2, closeSessionHandler st1 r now = some res1
      ∧ closeSessionHandler st2 r now = some res2
      ∧ res1.resp = res2.resp ∧ res1.resp.status = 400)
    ∧ (∃ res3 res4, pingSessionHandler st1 r now = some res3
      ∧ pingSessionHandler st2 r now = some res4
      ∧ res3.resp = res4.resp ∧ res3.resp.status = 400) := by
  have hany1 : st1.sessions.any
      (sessionQuery sid (formValue r.postForm "machine_id")) = false := by
    rw [List.any_eq_false]
    intro t ht hq
    exact hnone t ht ((sessionQuery_eq_true_iff _ _ t).mp hq).1
  have hany2 : st2.sessions.any
      (sessionQuery sid (formValue r.postForm "machine_id")) = false := by
    rw [List.any_eq_false]
    intro t ht hq
    obtain ⟨h1, h2, h3⟩ := (sessionQuery_eq_true_iff _ _ t).mp hq
    rcases hbad2 t ht h1 with hmid | hcl
    · exact hmid h2
    · exact hcl h3
  constructor
  · exact ⟨_, _, closeSessionHandler_notFound st1 r now sid hsid hbadf hany1,
      closeSessionHandler_notFound st2 r now sid hsid hbadf hany2, rfl, rfl⟩
  · exact ⟨_, _, pingSessionHandler_notFound st1 r now sid hsid hbadf hany1,
      pingSessionHandler_notFound st2 r now sid hsid hbadf hany2, rfl, rfl⟩

/-- A session with the example id owned by another machine. -/
def exOtherOwnerSession : Session := ⟨exId, 1, 0, 0, "c@d", "M2", "1.0", exReq0⟩

/-- A store holding only the other machine's session. -/
def exStoreOtherOwner : Store := ⟨[], [exOtherOwnerSession]⟩

/-- Witness for C6: closing against an empty store and against a store where
the session belongs to machine `M2` yields the same 400 response. -/
theorem close_ping_failure_indistinguishable_witness :
    ∃ res1 res2, closeSessionHandler ⟨[], []⟩ (exApiReq exCloseForm) 9 = some res1
      ∧ closeSessionHandler exStoreOtherOwner (exApiReq exCloseForm) 9 = some res2
      ∧ res1.resp = res2.resp ∧ res1.resp.status = 400 :=
  (close_ping_failure_indistinguishable ⟨[], []⟩ exStoreOtherOwner
    (exApiReq exCloseForm) 9 exId (by decide) (by decide) (by decide)
    ⟨exOtherOwnerSession, by decide, by decide⟩ (by decide)).1

/-- **C7.** A session/new request passing validation whose insert succeeds
answers 200, the body's first line is the hex of the fresh session id, and
the stored record carries the submitted jid, owner and version, a set
creation timestamp, and unset closed and last-ping timestamps. -/
theorem newSession_success_response_and_record
    (st : Store) (r : ApiRequest) (freshId : ObjectId) (now : Nat)
    (hok : sessFormBad r.postForm = false)
    (hfresh : ∀ t ∈ st.sessions, t.id ≠ freshId)
    (hnow : now ≠ 0) :
    (newSessionHandler st r freshId now).resp.status = 200
    ∧ (newSessionHandler st r freshId now).resp.body = hexEncode freshId ++ "\n"
    ∧ ∃ t, sessionOf (newSessionHandler st r freshId now).store freshId = some t
        ∧ t.jid = formValue r.postForm "jid"
        ∧ t.machineId = formValue r.postForm "machine_id"
        ∧ t.xmppvoxVersion = formValue r.postForm "xmppvox_version"
        ∧ t.createdAt ≠ 0 ∧ t.closedAt = 0 ∧ t.lastPing = 0 := by
  have hins : insertSession st
      (NewSession (formValue r.postForm "jid") (formValue r.postForm "machine_id")
        (formValue r.postForm "xmppvox_version") r.snapshot freshId now)
      = .ok { st with sessions := st.sessions
          ++ [NewSession (formValue r.postForm "jid")
              (formValue r.postForm "machine_id")
              (formValue r.postForm "xmppvox_version") r.snapshot freshId now] } := by
    unfold insertSession
    rw [if_neg ?hn]
    case hn =>
      intro hany
      obtain ⟨t, ht, hb⟩ := List.any_eq_true.mp hany
      exact hfresh t ht (by simpa using hb)
  have hh : newSessionHandler st r freshId now
      = ⟨⟨200, hexEncode freshId ++ "\n"⟩,
        { st with sessions := st.sessions
            ++ [NewSession (formValue r.postForm "jid")
                (formValue r.postForm "machine_id")
                (formValue r.postForm "xmppvox_version") r.snapshot freshId now] },
        1⟩ := by
    unfold newSessionHandler
    rw [if_neg (by simp [hok])]
    simp only [hins]
  refine ⟨by rw [hh], by rw [hh], ?_⟩
  refine ⟨NewSession (formValue r.postForm "jid") (formValue r.postForm "machine_id")
    (formValue r.postForm "xmppvox_version") r.snapshot freshId now,
    ?_, rfl, rfl, rfl, hnow, rfl, rfl⟩
  rw [hh]
  unfold sessionOf
  dsimp only
  rw [find?_append_singleton]
  have hnone : st.sessions.find? (fun t => t.id == freshId) = none :=
    List.find?_eq_none.mpr (fun t ht => by simpa using hfresh t ht)
  rw [hnone]
  simp [NewSession]

/-- A well-formed session/new form. -/
def exSessForm : Form :=
  [("jid", "a@b"), ("machine_id", "M1"), ("xmppvox_version", "1.0")]

/-- Witness for C7: creating a session in the empty store returns the hex
id as the body's first line. -/
theorem newSession_success_response_and_record_witness :
    (newSessionHandler ⟨[], []⟩ (exApiReq exSessForm) exId 4).resp.body
      = hexEncode exId ++ "\n" :=
  (newSession_success_response_and_record ⟨[], []⟩ (exApiReq exSessForm) exId 4
    (by decide) (by decide) (by decide)).2.1

/-- **C9.** The literal string `null` submitted as `dosvox_info` or
`machine_info` is accepted: it decodes to the absent (empty) mapping rather
than failing as invalid JSON, and, absent duplicates, the request answers
200 with the record stored with that empty mapping. -/
theorem installation_null_info_accepted :
    unmarshalStringMap "null" = some []
    ∧ ∀ (st : Store) (form : Form) (now : Nat),
        installFormBad form = false →
        (∀ j ∈ st.installations, j.machineId ≠ formValue form "machine_id") →
        ((formValue form "dosvox_info" = "null" →
          ∀ e, unmarshalStringMap (formValue form "machine_info") = some e →
          (newInstallationHandler st form now).resp.status = 200
          ∧ installationOf (newInstallationHandler st form now).store
              (formValue form "machine_id")
            = some (NewInstallation (formValue form "machine_id")
                (formValue form "xmppvox_version") [] e now))
        ∧ (formValue form "machine_info" = "null" →
          ∀ d, unmarshalStringMap (formValue form "dosvox_info") = some d →
          (newInstallationHandler st form now).resp.status = 200
          ∧ installationOf (newInstallationHandler st form now).store
              (formValue form "machine_id")
            = some (NewInstallation (formValue form "machine_id")
                (formValue form "xmppvox_version") d [] now))) := by
  refine ⟨by decide, ?_⟩
  intro st form now hok hfresh
  constructor
  · intro hdn e he
    have hd : unmarshalStringMap (formValue form "dosvox_info") = some [] := by
      rw [hdn]
      decide
    have hh := newInstallationHandler_ok st form now [] e hok hd he hfresh
    refine ⟨by rw [hh], ?_⟩
    rw [hh]
    unfold installationOf
    exact find?_installations_append st.installations _ _ rfl hfresh
  · intro hmn d hd
    have he : unmarshalStringMap (formValue form "machine_info") = some [] := by
      rw [hmn]
      decide
    have hh := newInstallationHandler_ok st form now d [] hok hd he hfresh
    refine ⟨by rw [hh], ?_⟩
    rw [hh]
    unfold installationOf
    exact find?_installations_append st.installations _ _ rfl hfresh

/-- Witness for C9: registering the example machine with `null` info fields
answers 200. -/
theorem installation_null_info_accepted_witness :
    (newInstallationHandler ⟨[], []⟩ exInstallForm 4).resp.status = 200 :=
  ((installation_null_info_accepted.2 ⟨[], []⟩ exInstallForm 4 (by decide)
    (by decide)).1 (by decide) [] (by decide)).1
